import Mathlib

/-!
Verification of the firmware image classification and flashing sequencer of
the Pixel Android Flash Tool (android_flash_tool.cpp).

The embedding models the pure decision logic of the tool directly from the
C++ source.  External effects (shelling out to fastboot, MySQL logging,
console output) are modelled explicitly:

* an environment `env : String → String` plays the role of
  `run_command_capture`, mapping a full command line to its captured
  textual output;
* the observable actions of a flashing run (operator prompt, warnings,
  flash attempts with their results, database log writes, the reboot
  request) are recorded as an ordered trace of `Event`s;
* the directory listing `list_img_files_in_dir` is an external shell
  invocation, so `auto_flash_flow` is modelled over the image list it
  produces.
-/

namespace FlashTool

/-- Model of C `tolower` on an unsigned char as used in
`guess_partition_from_filename`: ASCII uppercase letters are mapped to
lowercase, everything else is left unchanged. -/
def toLowerChar (c : Char) : Char :=
  if 'A' ≤ c ∧ c ≤ 'Z' then Char.ofNat (c.toNat + 32) else c

/-- Lowercasing loop `for (auto& c : s) c = tolower((unsigned char)c);`. -/
def lowerStr (s : String) : String :=
  String.mk (s.data.map toLowerChar)

/-- Boolean test that `p` is a prefix of `l` (character lists). -/
def beginsWith : List Char → List Char → Bool
  | _, [] => true
  | [], _ :: _ => false
  | a :: s, b :: t => a == b && beginsWith s t

/-- Boolean substring search on character lists, the model of
`std::string::find(pat) != std::string::npos`. -/
def containsSub : List Char → List Char → Bool
  | [], pat => beginsWith [] pat
  | a :: s, pat => beginsWith (a :: s) pat || containsSub s pat

/-- Model of `haystack.find(pat) != std::string::npos` on `std::string`. -/
def strContains (hay pat : String) : Bool :=
  containsSub hay.data pat.data

/-- Embedding of `guess_partition_from_filename` (main.cpp:367-383): the
file name is lowercased, then a fixed sequence of substring tests picks the
partition name; the empty string is the "no match" result. -/
def guess_partition_from_filename (fname : String) : String :=
  let s := lowerStr fname
  if strContains s "boot.img" then "boot"
  else if strContains s "vendor_boot" then "vendor_boot"
  else if strContains s "system.img" then "system"
  else if strContains s "vendor.img" then "vendor"
  else if strContains s "vbmeta.img" then "vbmeta"
  else if strContains s "recovery.img" then "recovery"
  else if strContains s "product.img" then "product"
  else if strContains s "userdata.img" then "userdata"
  else if strContains s "boot" then "boot"
  else if strContains s "system" then "system"
  else if strContains s "vendor" then "vendor"
  else ""

/-- Command line built by `fastboot_flash_partition` (main.cpp:339-343):
`fastboot [-s serial] flash <part> "<image_path>"`. -/
def fastboot_flash_cmd (serial part image_path : String) : String :=
  (if serial = "" then "fastboot" else "fastboot" ++ " -s " ++ serial)
    ++ " flash " ++ part ++ " \"" ++ image_path ++ "\""

/-- Embedding of `fastboot_flash_partition` (main.cpp:339-355): run the
flash command through the environment (the model of
`run_command_capture`) and report success exactly when the captured
output contains "OKAY" or "Flashing". -/
def fastboot_flash_partition (env : String → String) (serial part image_path : String) : Bool :=
  let out := env (fastboot_flash_cmd serial part image_path)
  strContains out "OKAY" || strContains out "Flashing"

/-- Command line built by `fastboot_reboot` (main.cpp:357-361). -/
def fastboot_reboot_cmd (serial : String) : String :=
  (if serial = "" then "fastboot" else "fastboot" ++ " -s " ++ serial) ++ " reboot"

/-- Embedding of `fastboot_reboot` (main.cpp:357-363): the reboot command
is issued fire-and-forget; its captured output is discarded and the
function always reports `true`. -/
def fastboot_reboot (env : String → String) (serial : String) : Bool :=
  let _ := env (fastboot_reboot_cmd serial)
  true

/-- File-name extraction in the flash loop (main.cpp:522-524):
`fname.substr(find_last_of("/\\") + 1)`, i.e. the characters after the
last path separator (the whole name when there is none). -/
def extract_fname (img : String) : String :=
  String.mk (img.data.foldl (fun acc c => if c == '/' || c == '\\' then [] else acc ++ [c]) [])

/-- Observable actions of one `auto_flash_flow` run, in order:
the "no image files found" warning, the operator confirmation prompt,
a `log_action` write (device, action, result), the "Skipping (unknown
partition)" warning, one flash attempt with its partition, image path and
result, and the fastboot reboot request. -/
inductive Event where
  | warnNoImages : Event
  | confirmPrompt : Event
  | log : String → String → String → Event
  | warnSkip : String → Event
  | flash : String → String → Bool → Event
  | reboot : Event
  deriving DecidableEq, Repr

/-- How one `auto_flash_flow` run ends: no images found, aborted by the
operator, halted at the first failed flash, or completed. -/
inductive FlowOutcome where
  | noImages : FlowOutcome
  | aborted : FlowOutcome
  | haltedOnFailure : FlowOutcome
  | completed : FlowOutcome
  deriving DecidableEq, Repr

/-- The per-image loop of `auto_flash_flow` (main.cpp:519-543): classify
each file name; skip unmatched files with a warning; flash matched files
and log the result; return (halting the run) right after the first failed
flash; after the last image issue the reboot request and log completion. -/
def flash_loop (env : String → String) (serial device : String) :
    List String → List Event × FlowOutcome
  | [] =>
    ([Event.reboot, Event.log device "auto_flash" "completed"], FlowOutcome.completed)
  | img :: rest =>
    let fname := extract_fname img
    let part := guess_partition_from_filename fname
    if part = "" then
      let r := flash_loop env serial device rest
      (Event.warnSkip fname :: r.1, r.2)
    else if fastboot_flash_partition env serial part img then
      let r := flash_loop env serial device rest
      (Event.flash part img true :: Event.log device ("flash_" ++ part) "OK" :: r.1, r.2)
    else
      ([Event.flash part img false, Event.log device ("flash_" ++ part) "FAIL"],
        FlowOutcome.haltedOnFailure)

/-- Embedding of `auto_flash_flow` (main.cpp:498-544) over the image list
produced by the external directory listing: an empty list ends the run at
once with a warning; otherwise the operator is prompted and any reply
other than the exact string "YES" aborts the run with an
"aborted_by_user" log entry; otherwise the flash loop runs. -/
def auto_flash_flow (env : String → String) (serial device confirmInput : String)
    (imgs : List String) : List Event × FlowOutcome :=
  if imgs = [] then ([Event.warnNoImages], FlowOutcome.noImages)
  else if confirmInput ≠ "YES" then
    ([Event.confirmPrompt, Event.log device "auto_flash" "aborted_by_user"],
      FlowOutcome.aborted)
  else
    let r := flash_loop env serial device imgs
    (Event.confirmPrompt :: r.1, r.2)

/-- Recognises a flash-attempt event in a trace. -/
def is_flash_event : Event → Bool
  | Event.flash _ _ _ => true
  | _ => false

/-- How the enclosing interactive session ends, from `main`
(main.cpp:548-721): the menu loop exits normally, a `sql::SQLException`
escapes to the top level (the database connection failure at startup), or
some other `std::exception` escapes to the top level. -/
inductive SessionEnd where
  | normalQuit : SessionEnd
  | dbError : String → SessionEnd
  | otherError : String → SessionEnd
  deriving DecidableEq, Repr

/-- Exit code of `main` (main.cpp:710-721): the `sql::SQLException`
handler returns 1, the generic `std::exception` handler also returns 1,
and the normal path returns 0. -/
def main_exit_code : SessionEnd → Nat
  | SessionEnd.normalQuit => 0
  | SessionEnd.dbError _ => 1
  | SessionEnd.otherError _ => 1

/-- Environment in which every external command produces no output. -/
def env0 : String → String := fun _ => ""

/-- Environment in which every external command answers "OKAY". -/
def envOK : String → String := fun _ => "OKAY"

/-- Environment in which only the flash command for the boot partition
answers "OKAY"; every other command produces no output. -/
def envC3 : String → String :=
  fun cmd => if strContains cmd "flash boot " then "OKAY" else ""

end FlashTool

namespace FlashTool

/-- The boolean prefix test agrees with the mathematical prefix relation. -/
theorem beginsWith_iff (p : List Char) :
    ∀ l : List Char, beginsWith l p = true ↔ p <+: l := by
  induction p with
  | nil => intro l; cases l <;> simp [beginsWith]
  | cons b t ih =>
    intro l
    cases l with
    | nil => simp [beginsWith]
    | cons a s =>
      simp only [beginsWith, Bool.and_eq_true, beq_iff_eq, ih, List.cons_prefix_cons]
      exact ⟨fun h => ⟨h.1.symm, h.2⟩, fun h => ⟨h.1.symm, h.2⟩⟩

/-- The boolean substring test agrees with the infix relation. -/
theorem containsSub_iff (l p : List Char) : containsSub l p = true ↔ p <:+: l := by
  induction l with
  | nil => cases p <;> simp [containsSub, beginsWith]
  | cons a s ih =>
    simp [containsSub, Bool.or_eq_true, beginsWith_iff, ih, List.infix_cons_iff]

/-- The model of `std::string::find` reports a hit exactly when the
pattern occurs as an infix of the haystack. -/
theorem strContains_iff (hay pat : String) :
    strContains hay pat = true ↔ pat.data <:+: hay.data :=
  containsSub_iff hay.data pat.data

/-- The flash loop only ever ends halted-on-failure or completed. -/
theorem flash_loop_not_aborted (env : String → String) (serial device : String) :
    ∀ imgs : List String,
      (flash_loop env serial device imgs).2 = FlowOutcome.haltedOnFailure ∨
        (flash_loop env serial device imgs).2 = FlowOutcome.completed := by
  intro imgs
  induction imgs with
  | nil => simp [flash_loop]
  | cons img rest ih =>
    by_cases h : guess_partition_from_filename (extract_fname img) = ""
    · simpa [flash_loop, h] using ih
    · by_cases hf : fastboot_flash_partition env serial
          (guess_partition_from_filename (extract_fname img)) img
      · simpa [flash_loop, h, hf] using ih
      · simp [flash_loop, h, hf]

/-- When every image in the list is either unmatched or flashes
successfully, the loop runs to the end: the trace is some reboot-free
event list followed by the reboot request and the completion log entry,
and the outcome is completed. -/
theorem flash_loop_all_ok (env : String → String) (serial device : String) :
    ∀ imgs : List String,
      (∀ img ∈ imgs, guess_partition_from_filename (extract_fname img) = "" ∨
        fastboot_flash_partition env serial
          (guess_partition_from_filename (extract_fname img)) img = true) →
      ∃ evs : List Event,
        flash_loop env serial device imgs =
          (evs ++ [Event.reboot, Event.log device "auto_flash" "completed"],
            FlowOutcome.completed) ∧
        Event.reboot ∉ evs := by
  intro imgs
  induction imgs with
  | nil => intro _; exact ⟨[], by simp [flash_loop], by simp⟩
  | cons img rest ih =>
    intro h
    obtain ⟨evs, heq, hnr⟩ := ih (fun i hi => h i (List.mem_cons_of_mem _ hi))
    by_cases hp : guess_partition_from_filename (extract_fname img) = ""
    · refine ⟨Event.warnSkip (extract_fname img) :: evs, ?_, ?_⟩
      · simp [flash_loop, hp, heq]
      · simp [hnr]
    · have hok : fastboot_flash_partition env serial
          (guess_partition_from_filename (extract_fname img)) img = true := by
        rcases h img (List.mem_cons_self _ _) with h1 | h2
        · exact absurd h1 hp
        · exact h2
      refine ⟨Event.flash (guess_partition_from_filename (extract_fname img)) img true ::
          Event.log device ("flash_" ++ guess_partition_from_filename (extract_fname img)) "OK" ::
          evs, ?_, ?_⟩
      · simp [flash_loop, hp, hok, heq]
      · simp [hnr]

/-- C1: the classifier is claimed to map every name containing
"vendor_boot" to "vendor_boot"; in the code the "boot.img" test runs
first, and "vendor_boot.img" contains "boot.img" as a substring, so the
canonical vendor-boot image name is classified as "boot". -/
theorem guess_vendor_boot_img_misclassified :
    guess_partition_from_filename "vendor_boot.img" = "boot" := by decide

/-- C2: the classifier returns "boot" for "boot.img", "recovery" for
"RECOVERY.IMG" (matching is case-insensitive), and the empty string (no
match) for "random_blob.bin". -/
theorem guess_partition_examples :
    guess_partition_from_filename "boot.img" = "boot" ∧
    guess_partition_from_filename "RECOVERY.IMG" = "recovery" ∧
    guess_partition_from_filename "random_blob.bin" = "" := by decide

/-- C3: the flash loop halts right after the first failed flash attempt
(the trace ends with that attempt and its FAIL log entry, whatever images
remain), and in a confirmed run over three matched images whose second
flash fails, the whole run produces exactly one successful and one failed
flash result and never touches the third image. -/
theorem auto_flash_halts_on_first_failure :
    (∀ (env : String → String) (serial device img : String) (rest : List String),
      guess_partition_from_filename (extract_fname img) ≠ "" →
      fastboot_flash_partition env serial
        (guess_partition_from_filename (extract_fname img)) img = false →
      flash_loop env serial device (img :: rest) =
        ([Event.flash (guess_partition_from_filename (extract_fname img)) img false,
          Event.log device ("flash_" ++ guess_partition_from_filename (extract_fname img)) "FAIL"],
          FlowOutcome.haltedOnFailure)) ∧
    (∀ (env : String → String) (serial device a b c : String),
      guess_partition_from_filename (extract_fname a) ≠ "" →
      guess_partition_from_filename (extract_fname b) ≠ "" →
      fastboot_flash_partition env serial
        (guess_partition_from_filename (extract_fname a)) a = true →
      fastboot_flash_partition env serial
        (guess_partition_from_filename (extract_fname b)) b = false →
      auto_flash_flow env serial device "YES" [a, b, c] =
        ([Event.confirmPrompt,
          Event.flash (guess_partition_from_filename (extract_fname a)) a true,
          Event.log device ("flash_" ++ guess_partition_from_filename (extract_fname a)) "OK",
          Event.flash (guess_partition_from_filename (extract_fname b)) b false,
          Event.log device ("flash_" ++ guess_partition_from_filename (extract_fname b)) "FAIL"],
          FlowOutcome.haltedOnFailure)) := by
  constructor
  · intro env serial device img rest h hf
    simp [flash_loop, h, hf]
  · intro env serial device a b c ha hb fa fb
    simp [auto_flash_flow, flash_loop, ha, hb, fa, fb]

/-- Witness for C3: with images a_boot.img, b_system.img, c_recovery.img
and an environment in which only the boot flash succeeds, the run stops
after the failed system flash and never reaches c_recovery.img. -/
theorem auto_flash_halts_on_first_failure_witness :
    (flash_loop envC3 "" "pixel" ["b_system.img", "c_recovery.img"] =
      ([Event.flash (guess_partition_from_filename (extract_fname "b_system.img"))
          "b_system.img" false,
        Event.log "pixel"
          ("flash_" ++ guess_partition_from_filename (extract_fname "b_system.img")) "FAIL"],
        FlowOutcome.haltedOnFailure)) ∧
    (auto_flash_flow envC3 "" "pixel" "YES" ["a_boot.img", "b_system.img", "c_recovery.img"] =
      ([Event.confirmPrompt,
        Event.flash (guess_partition_from_filename (extract_fname "a_boot.img"))
          "a_boot.img" true,
        Event.log "pixel"
          ("flash_" ++ guess_partition_from_filename (extract_fname "a_boot.img")) "OK",
        Event.flash (guess_partition_from_filename (extract_fname "b_system.img"))
          "b_system.img" false,
        Event.log "pixel"
          ("flash_" ++ guess_partition_from_filename (extract_fname "b_system.img")) "FAIL"],
        FlowOutcome.haltedOnFailure)) :=
  ⟨auto_flash_halts_on_first_failure.1 envC3 "" "pixel" "b_system.img" ["c_recovery.img"]
      (by decide) (by decide),
    auto_flash_halts_on_first_failure.2 envC3 "" "pixel" "a_boot.img" "b_system.img"
      "c_recovery.img" (by decide) (by decide) (by decide) (by decide)⟩

/-- C4: for a non-empty image list, any operator reply other than "YES"
ends the run with no flash attempt at all, a single "aborted_by_user" log
entry for the auto_flash action, and the non-error aborted outcome. -/
theorem auto_flash_abort_on_refusal (env : String → String)
    (serial device confirmInput : String) (imgs : List String)
    (hne : imgs ≠ []) (hconf : confirmInput ≠ "YES") :
    auto_flash_flow env serial device confirmInput imgs =
      ([Event.confirmPrompt, Event.log device "auto_flash" "aborted_by_user"],
        FlowOutcome.aborted) := by
  simp [auto_flash_flow, hne, hconf]

/-- Witness for C4 with the reply "no" on a one-image list. -/
theorem auto_flash_abort_on_refusal_witness :
    auto_flash_flow env0 "" "pixel" "no" ["a_boot.img"] =
      ([Event.confirmPrompt, Event.log "pixel" "auto_flash" "aborted_by_user"],
        FlowOutcome.aborted) :=
  auto_flash_abort_on_refusal env0 "" "pixel" "no" ["a_boot.img"] (by decide) (by decide)

/-- C5: an empty image list ends the run at once with the no-images
warning and outcome; the trace shows that the operator confirmation
prompt never appears and nothing is flashed or logged. -/
theorem auto_flash_empty_no_images (env : String → String)
    (serial device confirmInput : String) :
    auto_flash_flow env serial device confirmInput [] =
      ([Event.warnNoImages], FlowOutcome.noImages) := by
  simp [auto_flash_flow]

/-- C6: an image the classifier does not match contributes exactly one
skip warning to the trace — no flash attempt, no log entry — and the rest
of the run (its events and its outcome) is exactly the run over the
remaining images, so an unmatched image never halts the run. -/
theorem flash_loop_skips_unmatched (env : String → String) (serial device img : String)
    (rest : List String)
    (h : guess_partition_from_filename (extract_fname img) = "") :
    flash_loop env serial device (img :: rest) =
      (Event.warnSkip (extract_fname img) :: (flash_loop env serial device rest).1,
        (flash_loop env serial device rest).2) := by
  simp [flash_loop, h]

/-- Witness for C6 at the unmatched image c_unknown.bin. -/
theorem flash_loop_skips_unmatched_witness :
    flash_loop env0 "" "pixel" ["c_unknown.bin"] =
      (Event.warnSkip (extract_fname "c_unknown.bin") :: (flash_loop env0 "" "pixel" []).1,
        (flash_loop env0 "" "pixel" []).2) :=
  flash_loop_skips_unmatched env0 "" "pixel" "c_unknown.bin" [] (by decide)

/-- C7: the flash helper reports success exactly when the captured output
of the flash command contains "OKAY" or "Flashing" as a substring; in
particular, in an environment producing empty output it reports failure. -/
theorem fastboot_flash_success_iff (env : String → String)
    (serial part image_path : String) :
    (fastboot_flash_partition env serial part image_path = true ↔
      ("OKAY".data <:+: (env (fastboot_flash_cmd serial part image_path)).data ∨
        "Flashing".data <:+: (env (fastboot_flash_cmd serial part image_path)).data)) ∧
    fastboot_flash_partition (fun _ => "") serial part image_path = false := by
  constructor
  · simp [fastboot_flash_partition, Bool.or_eq_true, strContains_iff]
  · rfl

/-- C8: in a confirmed run where every image is either unmatched or
flashes successfully, the outcome is completed, the trace contains the
reboot request exactly once, the completion log entry is the last event,
and the reboot request is the event just before it (after every image);
the reboot helper itself always reports true (fire-and-forget: its result
never feeds back into the run). -/
theorem auto_flash_success_reboots_once :
    (∀ (env : String → String) (serial : String), fastboot_reboot env serial = true) ∧
    ∀ (env : String → String) (serial device : String) (imgs : List String),
      imgs ≠ [] →
      (∀ img ∈ imgs, guess_partition_from_filename (extract_fname img) = "" ∨
        fastboot_flash_partition env serial
          (guess_partition_from_filename (extract_fname img)) img = true) →
      (auto_flash_flow env serial device "YES" imgs).2 = FlowOutcome.completed ∧
      (auto_flash_flow env serial device "YES" imgs).1.count Event.reboot = 1 ∧
      (auto_flash_flow env serial device "YES" imgs).1.getLast? =
        some (Event.log device "auto_flash" "completed") ∧
      (auto_flash_flow env serial device "YES" imgs).1.dropLast.getLast? =
        some Event.reboot := by
  constructor
  · intro env serial; rfl
  · intro env serial device imgs hne hok
    obtain ⟨evs, heq, hnr⟩ := flash_loop_all_ok env serial device imgs hok
    have hflow : auto_flash_flow env serial device "YES" imgs =
        (((Event.confirmPrompt :: evs) ++ [Event.reboot]) ++
            [Event.log device "auto_flash" "completed"],
          FlowOutcome.completed) := by
      simp [auto_flash_flow, hne, heq]
    rw [hflow]
    refine ⟨rfl, ?_, ?_, ?_⟩
    · simp [List.count_append, List.count_cons, List.count_eq_zero.mpr hnr]
    · exact List.getLast?_concat _
    · rw [List.dropLast_concat]; exact List.getLast?_concat _

/-- Witness for C8: the end-to-end scenario a_boot.img, b_system.img,
c_unknown.bin in an all-OKAY environment completes with one reboot. -/
theorem auto_flash_success_reboots_once_witness :
    (auto_flash_flow envOK "" "pixel" "YES"
        ["a_boot.img", "b_system.img", "c_unknown.bin"]).2 = FlowOutcome.completed ∧
    (auto_flash_flow envOK "" "pixel" "YES"
        ["a_boot.img", "b_system.img", "c_unknown.bin"]).1.count Event.reboot = 1 ∧
    (auto_flash_flow envOK "" "pixel" "YES"
        ["a_boot.img", "b_system.img", "c_unknown.bin"]).1.getLast? =
      some (Event.log "pixel" "auto_flash" "completed") ∧
    (auto_flash_flow envOK "" "pixel" "YES"
        ["a_boot.img", "b_system.img", "c_unknown.bin"]).1.dropLast.getLast? =
      some Event.reboot :=
  auto_flash_success_reboots_once.2 envOK "" "pixel"
    ["a_boot.img", "b_system.img", "c_unknown.bin"] (by decide) (by decide)

/-- C9 counterexample: a generic top-level error exits with code 1, not 0
as claimed — so exit code 1 is not reserved to the database-connection
failure. -/
theorem main_exit_code_error_is_one :
    main_exit_code (SessionEnd.otherError "boom") = 1 ∧
    ¬ main_exit_code (SessionEnd.otherError "boom") = 0 := by decide

/-- C9 amended: the exit code is 0 exactly on a normal quit, and 1 both
on the database-connection failure at startup and on any other
unrecoverable top-level error after printing a message. -/
theorem main_exit_code_characterisation (s : SessionEnd) :
    (main_exit_code s = 0 ↔ s = SessionEnd.normalQuit) ∧
    (main_exit_code s = 1 ↔ s ≠ SessionEnd.normalQuit) := by
  cases s <;> simp [main_exit_code]

/-- C10: on a non-empty image list the run is aborted exactly when the
operator's reply differs from the exact string "YES" (so "yes", "Yes" or
"Y" all abort), and whenever the reply is not "YES" the trace contains no
flash attempt at all. -/
theorem confirm_gate_requires_exact_yes (env : String → String)
    (serial device confirmInput : String) (imgs : List String) (hne : imgs ≠ []) :
    ((auto_flash_flow env serial device confirmInput imgs).2 = FlowOutcome.aborted ↔
      confirmInput ≠ "YES") ∧
    (confirmInput = "YES" ∨
      List.countP is_flash_event (auto_flash_flow env serial device confirmInput imgs).1 = 0) := by
  by_cases hc : confirmInput = "YES"
  · subst hc
    have hfl := flash_loop_not_aborted env serial device imgs
    have hflow : (auto_flash_flow env serial device "YES" imgs).2 =
        (flash_loop env serial device imgs).2 := by
      simp [auto_flash_flow, hne]
    have hnab : (auto_flash_flow env serial device "YES" imgs).2 ≠ FlowOutcome.aborted := by
      rw [hflow]
      rcases hfl with h | h <;> rw [h] <;> decide
    exact ⟨⟨fun hab => absurd hab hnab, fun hy => absurd rfl hy⟩, Or.inl rfl⟩
  · have hflow : auto_flash_flow env serial device confirmInput imgs =
        ([Event.confirmPrompt, Event.log device "auto_flash" "aborted_by_user"],
          FlowOutcome.aborted) := by
      simp [auto_flash_flow, hne, hc]
    refine ⟨?_, Or.inr ?_⟩
    · rw [hflow]; exact ⟨fun _ => hc, fun _ => rfl⟩
    · rw [hflow]; rfl

/-- Witness for C10: the lowercase reply "yes" aborts a one-image run and
its trace holds no flash attempt. -/
theorem confirm_gate_requires_exact_yes_witness :
    ((auto_flash_flow env0 "" "pixel" "yes" ["a_boot.img"]).2 = FlowOutcome.aborted ↔
      "yes" ≠ "YES") ∧
    ("yes" = "YES" ∨
      List.countP is_flash_event (auto_flash_flow env0 "" "pixel" "yes" ["a_boot.img"]).1 = 0) :=
  confirm_gate_requires_exact_yes env0 "" "pixel" "yes" ["a_boot.img"] (by decide)

end FlashTool
